import Mathlib

/-!
Verification of the `tcyrus/elliptic-curves` repository (NIST P-256 and
P-521 crates) against its natural-language specification.

The repository sources under verification are:
* `p256/src/lib.rs` — curve marker type `NistP256` with the group order
  constant `ORDER`, the point-compression flags, and the SEC1 byte-layout
  type aliases (`CompressedPoint = GenericArray<u8, U33>`, `EncodedPoint`,
  `NonZeroScalar`, ...).
* `p521/src/arithmetic.rs` — the `WeierstrassCurve` instance for `NistP521`
  with the constants `EQUATION_A`, `EQUATION_B` and `GENERATOR` given as
  big-endian hex strings.

The arithmetic back-ends (field elements, scalars, points, SEC1
encode/decode) live in crates outside these two files; where a claim needs
them they are modelled from the specification (each such definition carries
a doc comment starting with `Modelled from the spec:`).

Machine integers are modelled as `Nat` with explicit reduction `% p`.
`FieldElement::from_be_hex` parses a big-endian hex string to the canonical
integer it denotes (the internal Montgomery/residue domain is transparent
to callers per the spec glossary), so constants are embedded as the numeric
values of their hex strings.
-/

set_option maxRecDepth 100000
set_option maxHeartbeats 4000000
set_option exponentiation.threshold 600

namespace EllipticCurves

/-! ### Fast modular exponentiation

Used to model `invert` (Fermat's little theorem, `a^(p-2) mod p`) and
`sqrt` (`a^((p+1)/4) mod p` for `p ≡ 3 (mod 4)`) from §4.1 of the spec,
and to evaluate the Fermat/Lucas conditions in the primality certificates.
-/

/-- Square-and-multiply exponentiation modulo `m`, structurally recursive on
a fuel parameter so that it evaluates by kernel reduction. -/
def powModAux : Nat → Nat → Nat → Nat → Nat
  | 0, m, _, _ => 1 % m
  | f + 1, m, a, e =>
    if e = 0 then 1 % m
    else
      let r := powModAux f m (a * a % m) (e / 2)
      if e % 2 = 1 then r * a % m else r

/-- `powMod m a e = a ^ e % m`, computed by binary exponentiation. -/
def powMod (m a e : Nat) : Nat := powModAux e m a e

theorem powModAux_eq (f : Nat) :
    ∀ m a e : Nat, 0 < m → e < 2 ^ f → powModAux f m a e = a ^ e % m := by
  induction f with
  | zero =>
    intro m a e hm he
    have h0 : e = 0 := by simpa using Nat.lt_one_iff.mp (by simpa using he)
    subst h0
    simp [powModAux]
  | succ f ih =>
    intro m a e hm he
    by_cases h0 : e = 0
    · subst h0; simp [powModAux]
    · have hdiv : e / 2 < 2 ^ f := by
        have h2 : e < 2 ^ f * 2 := by
          have : (2 : Nat) ^ (f + 1) = 2 ^ f * 2 := by ring
          omega
        exact Nat.div_lt_of_lt_mul (by omega)
      have hr : powModAux f m (a * a % m) (e / 2) = (a * a % m) ^ (e / 2) % m :=
        ih m (a * a % m) (e / 2) hm hdiv
      have hsq : (a * a % m) ^ (e / 2) % m = a ^ (2 * (e / 2)) % m := by
        rw [← Nat.pow_mod, two_mul, pow_add, ← pow_add]
        congr 1
        ring
      by_cases hpar : e % 2 = 1
      · have heq : 2 * (e / 2) + 1 = e := by omega
        have : powModAux (f + 1) m a e = powModAux f m (a * a % m) (e / 2) * a % m := by
          simp [powModAux, h0, hpar]
        rw [this, hr, hsq, Nat.mod_mul_mod, ← pow_succ, heq]
      · have heq : 2 * (e / 2) = e := by omega
        have : powModAux (f + 1) m a e = powModAux f m (a * a % m) (e / 2) := by
          simp [powModAux, h0, hpar]
        rw [this, hr, hsq, heq]

theorem powMod_eq (m a e : Nat) (hm : 0 < m) : powMod m a e = a ^ e % m :=
  powModAux_eq e m a e hm (Nat.lt_two_pow e)

theorem powMod_lt (m a e : Nat) (hm : 0 < m) : powMod m a e < m := by
  rw [powMod_eq m a e hm]
  exact Nat.mod_lt _ hm

/-! ### Bridges between `powMod` and powers in `ZMod q` -/

theorem zmodPow_eq (q a e : Nat) (hq : 0 < q) :
    ((a : ZMod q)) ^ e = ((powMod q a e : Nat) : ZMod q) := by
  rw [powMod_eq q a e hq, ZMod.natCast_mod, Nat.cast_pow]

theorem zmodPow_eq_one (q a e : Nat) (hq : 1 < q) (h : powMod q a e = 1) :
    ((a : ZMod q)) ^ e = 1 := by
  rw [zmodPow_eq q a e (by omega), h, Nat.cast_one]

theorem zmodPow_ne_one (q a e : Nat) (hq : 1 < q) (h : powMod q a e ≠ 1) :
    ((a : ZMod q)) ^ e ≠ 1 := by
  rw [zmodPow_eq q a e (by omega)]
  intro hc
  have h2 : ((powMod q a e : Nat) : ZMod q) = ((1 : Nat) : ZMod q) := by
    rw [hc, Nat.cast_one]
  have h3 : powMod q a e % q = 1 % q := (ZMod.natCast_eq_natCast_iff' _ _ _).mp h2
  rw [Nat.mod_eq_of_lt (powMod_lt q a e (by omega)), Nat.mod_eq_of_lt hq] at h3
  exact h h3

/-! ### Primality certificates

Pratt/Lucas certificates for the NIST P-256 group order `n` and base-field
prime `p`, built on `lucas_primality` with `powMod` evaluating the
Fermat conditions by kernel reduction. Certificate chains are bottom-up:
every prime factor of `q - 1` is either small enough for `norm_num` or has
its own certificate above.
-/

theorem prime_311245691 : Nat.Prime 311245691 := by
  have h : 311245691 - 1 = 2 * (5 * (7 * (17 * (29 ^ 2 * (311))))) := by norm_num
  refine lucas_primality 311245691 ((2 : Nat) : ZMod 311245691) ?_ ?_
  · exact zmodPow_eq_one 311245691 2 (311245691 - 1) (by norm_num) (by decide)
  · intro q hq hdvd
    rw [h] at hdvd
    rcases (Nat.Prime.dvd_mul hq).mp hdvd with h1 | hdvd
    · have he : q = 2 := (Nat.prime_dvd_prime_iff_eq hq (by norm_num)).mp h1
      subst he
      exact zmodPow_ne_one 311245691 2 ((311245691 - 1) / 2) (by norm_num) (by decide)
    rcases (Nat.Prime.dvd_mul hq).mp hdvd with h1 | hdvd
    · have he : q = 5 := (Nat.prime_dvd_prime_iff_eq hq (by norm_num)).mp h1
      subst he
      exact zmodPow_ne_one 311245691 2 ((311245691 - 1) / 5) (by norm_num) (by decide)
    rcases (Nat.Prime.dvd_mul hq).mp hdvd with h1 | hdvd
    · have he : q = 7 := (Nat.prime_dvd_prime_iff_eq hq (by norm_num)).mp h1
      subst he
      exact zmodPow_ne_one 311245691 2 ((311245691 - 1) / 7) (by norm_num) (by decide)
    rcases (Nat.Prime.dvd_mul hq).mp hdvd with h1 | hdvd
    · have he : q = 17 := (Nat.prime_dvd_prime_iff_eq hq (by norm_num)).mp h1
      subst he
      exact zmodPow_ne_one 311245691 2 ((311245691 - 1) / 17) (by norm_num) (by decide)
    rcases (Nat.Prime.dvd_mul hq).mp hdvd with h1 | hdvd
    · have he : q = 29 := (Nat.prime_dvd_prime_iff_eq hq (by norm_num)).mp (hq.dvd_of_dvd_pow h1)
      subst he
      exact zmodPow_ne_one 311245691 2 ((311245691 - 1) / 29) (by norm_num) (by decide)
    · have he : q = 311 := (Nat.prime_dvd_prime_iff_eq hq (by norm_num)).mp hdvd
      subst he
      exact zmodPow_ne_one 311245691 2 ((311245691 - 1) / 311) (by norm_num) (by decide)

theorem prime_187019741 : Nat.Prime 187019741 := by
  have h : 187019741 - 1 = 2 ^ 2 * (5 * (9350987)) := by norm_num
  refine lucas_primality 187019741 ((2 : Nat) : ZMod 187019741) ?_ ?_
  · exact zmodPow_eq_one 187019741 2 (187019741 - 1) (by norm_num) (by decide)
  · intro q hq hdvd
    rw [h] at hdvd
    rcases (Nat.Prime.dvd_mul hq).mp hdvd with h1 | hdvd
    · have he : q = 2 := (Nat.prime_dvd_prime_iff_eq hq (by norm_num)).mp (hq.dvd_of_dvd_pow h1)
      subst he
      exact zmodPow_ne_one 187019741 2 ((187019741 - 1) / 2) (by norm_num) (by decide)
    rcases (Nat.Prime.dvd_mul hq).mp hdvd with h1 | hdvd
    · have he : q = 5 := (Nat.prime_dvd_prime_iff_eq hq (by norm_num)).mp h1
      subst he
      exact zmodPow_ne_one 187019741 2 ((187019741 - 1) / 5) (by norm_num) (by decide)
    · have he : q = 9350987 := (Nat.prime_dvd_prime_iff_eq hq (by norm_num)).mp hdvd
      subst he
      exact zmodPow_ne_one 187019741 2 ((187019741 - 1) / 9350987) (by norm_num) (by decide)

theorem prime_622491383 : Nat.Prime 622491383 := by
  have h : 622491383 - 1 = 2 * (311245691) := by norm_num
  refine lucas_primality 622491383 ((5 : Nat) : ZMod 622491383) ?_ ?_
  · exact zmodPow_eq_one 622491383 5 (622491383 - 1) (by norm_num) (by decide)
  · intro q hq hdvd
    rw [h] at hdvd
    rcases (Nat.Prime.dvd_mul hq).mp hdvd with h1 | hdvd
    · have he : q = 2 := (Nat.prime_dvd_prime_iff_eq hq (by norm_num)).mp h1
      subst he
      exact zmodPow_ne_one 622491383 5 ((622491383 - 1) / 2) (by norm_num) (by decide)
    · have he : q = 311245691 := (Nat.prime_dvd_prime_iff_eq hq (prime_311245691)).mp hdvd
      subst he
      exact zmodPow_ne_one 622491383 5 ((622491383 - 1) / 311245691) (by norm_num) (by decide)

theorem prime_1002328039319 : Nat.Prime 1002328039319 := by
  have h : 1002328039319 - 1 = 2 * (126241 * (3969899)) := by norm_num
  refine lucas_primality 1002328039319 ((19 : Nat) : ZMod 1002328039319) ?_ ?_
  · exact zmodPow_eq_one 1002328039319 19 (1002328039319 - 1) (by norm_num) (by decide)
  · intro q hq hdvd
    rw [h] at hdvd
    rcases (Nat.Prime.dvd_mul hq).mp hdvd with h1 | hdvd
    · have he : q = 2 := (Nat.prime_dvd_prime_iff_eq hq (by norm_num)).mp h1
      subst he
      exact zmodPow_ne_one 1002328039319 19 ((1002328039319 - 1) / 2) (by norm_num) (by decide)
    rcases (Nat.Prime.dvd_mul hq).mp hdvd with h1 | hdvd
    · have he : q = 126241 := (Nat.prime_dvd_prime_iff_eq hq (by norm_num)).mp h1
      subst he
      exact zmodPow_ne_one 1002328039319 19 ((1002328039319 - 1) / 126241) (by norm_num) (by decide)
    · have he : q = 3969899 := (Nat.prime_dvd_prime_iff_eq hq (by norm_num)).mp hdvd
      subst he
      exact zmodPow_ne_one 1002328039319 19 ((1002328039319 - 1) / 3969899) (by norm_num) (by decide)

theorem prime_191039911 : Nat.Prime 191039911 := by
  have h : 191039911 - 1 = 2 * (3 * (5 * (41 * (155317)))) := by norm_num
  refine lucas_primality 191039911 ((3 : Nat) : ZMod 191039911) ?_ ?_
  · exact zmodPow_eq_one 191039911 3 (191039911 - 1) (by norm_num) (by decide)
  · intro q hq hdvd
    rw [h] at hdvd
    rcases (Nat.Prime.dvd_mul hq).mp hdvd with h1 | hdvd
    · have he : q = 2 := (Nat.prime_dvd_prime_iff_eq hq (by norm_num)).mp h1
      subst he
      exact zmodPow_ne_one 191039911 3 ((191039911 - 1) / 2) (by norm_num) (by decide)
    rcases (Nat.Prime.dvd_mul hq).mp hdvd with h1 | hdvd
    · have he : q = 3 := (Nat.prime_dvd_prime_iff_eq hq (by norm_num)).mp h1
      subst he
      exact zmodPow_ne_one 191039911 3 ((191039911 - 1) / 3) (by norm_num) (by decide)
    rcases (Nat.Prime.dvd_mul hq).mp hdvd with h1 | hdvd
    · have he : q = 5 := (Nat.prime_dvd_prime_iff_eq hq (by norm_num)).mp h1
      subst he
      exact zmodPow_ne_one 191039911 3 ((191039911 - 1) / 5) (by norm_num) (by decide)
    rcases (Nat.Prime.dvd_mul hq).mp hdvd with h1 | hdvd
    · have he : q = 41 := (Nat.prime_dvd_prime_iff_eq hq (by norm_num)).mp h1
      subst he
      exact zmodPow_ne_one 191039911 3 ((191039911 - 1) / 41) (by norm_num) (by decide)
    · have he : q = 155317 := (Nat.prime_dvd_prime_iff_eq hq (by norm_num)).mp hdvd
      subst he
      exact zmodPow_ne_one 191039911 3 ((191039911 - 1) / 155317) (by norm_num) (by decide)

theorem prime_208150935158385979 : Nat.Prime 208150935158385979 := by
  have h : 208150935158385979 - 1 = 2 * (3 * (11 * (43 * (127 * (3023 * (191039911)))))) := by norm_num
  refine lucas_primality 208150935158385979 ((2 : Nat) : ZMod 208150935158385979) ?_ ?_
  · exact zmodPow_eq_one 208150935158385979 2 (208150935158385979 - 1) (by norm_num) (by decide)
  · intro q hq hdvd
    rw [h] at hdvd
    rcases (Nat.Prime.dvd_mul hq).mp hdvd with h1 | hdvd
    · have he : q = 2 := (Nat.prime_dvd_prime_iff_eq hq (by norm_num)).mp h1
      subst he
      exact zmodPow_ne_one 208150935158385979 2 ((208150935158385979 - 1) / 2) (by norm_num) (by decide)
    rcases (Nat.Prime.dvd_mul hq).mp hdvd with h1 | hdvd
    · have he : q = 3 := (Nat.prime_dvd_prime_iff_eq hq (by norm_num)).mp h1
      subst he
      exact zmodPow_ne_one 208150935158385979 2 ((208150935158385979 - 1) / 3) (by norm_num) (by decide)
    rcases (Nat.Prime.dvd_mul hq).mp hdvd with h1 | hdvd
    · have he : q = 11 := (Nat.prime_dvd_prime_iff_eq hq (by norm_num)).mp h1
      subst he
      exact zmodPow_ne_one 208150935158385979 2 ((208150935158385979 - 1) / 11) (by norm_num) (by decide)
    rcases (Nat.Prime.dvd_mul hq).mp hdvd with h1 | hdvd
    · have he : q = 43 := (Nat.prime_dvd_prime_iff_eq hq (by norm_num)).mp h1
      subst he
      exact zmodPow_ne_one 208150935158385979 2 ((208150935158385979 - 1) / 43) (by norm_num) (by decide)
    rcases (Nat.Prime.dvd_mul hq).mp hdvd with h1 | hdvd
    · have he : q = 127 := (Nat.prime_dvd_prime_iff_eq hq (by norm_num)).mp h1
      subst he
      exact zmodPow_ne_one 208150935158385979 2 ((208150935158385979 - 1) / 127) (by norm_num) (by decide)
    rcases (Nat.Prime.dvd_mul hq).mp hdvd with h1 | hdvd
    · have he : q = 3023 := (Nat.prime_dvd_prime_iff_eq hq (by norm_num)).mp h1
      subst he
      exact zmodPow_ne_one 208150935158385979 2 ((208150935158385979 - 1) / 3023) (by norm_num) (by decide)
    · have he : q = 191039911 := (Nat.prime_dvd_prime_iff_eq hq (prime_191039911)).mp hdvd
      subst he
      exact zmodPow_ne_one 208150935158385979 2 ((208150935158385979 - 1) / 191039911) (by norm_num) (by decide)

theorem prime_2624747550333869278416773953 : Nat.Prime 2624747550333869278416773953 := by
  have h : 2624747550333869278416773953 - 1 = 2 ^ 6 * (3 ^ 2 * (1297 * (16879 * (208150935158385979)))) := by norm_num
  refine lucas_primality 2624747550333869278416773953 ((7 : Nat) : ZMod 2624747550333869278416773953) ?_ ?_
  · exact zmodPow_eq_one 2624747550333869278416773953 7 (2624747550333869278416773953 - 1) (by norm_num) (by decide)
  · intro q hq hdvd
    rw [h] at hdvd
    rcases (Nat.Prime.dvd_mul hq).mp hdvd with h1 | hdvd
    · have he : q = 2 := (Nat.prime_dvd_prime_iff_eq hq (by norm_num)).mp (hq.dvd_of_dvd_pow h1)
      subst he
      exact zmodPow_ne_one 2624747550333869278416773953 7 ((2624747550333869278416773953 - 1) / 2) (by norm_num) (by decide)
    rcases (Nat.Prime.dvd_mul hq).mp hdvd with h1 | hdvd
    · have he : q = 3 := (Nat.prime_dvd_prime_iff_eq hq (by norm_num)).mp (hq.dvd_of_dvd_pow h1)
      subst he
      exact zmodPow_ne_one 2624747550333869278416773953 7 ((2624747550333869278416773953 - 1) / 3) (by norm_num) (by decide)
    rcases (Nat.Prime.dvd_mul hq).mp hdvd with h1 | hdvd
    · have he : q = 1297 := (Nat.prime_dvd_prime_iff_eq hq (by norm_num)).mp h1
      subst he
      exact zmodPow_ne_one 2624747550333869278416773953 7 ((2624747550333869278416773953 - 1) / 1297) (by norm_num) (by decide)
    rcases (Nat.Prime.dvd_mul hq).mp hdvd with h1 | hdvd
    · have he : q = 16879 := (Nat.prime_dvd_prime_iff_eq hq (by norm_num)).mp h1
      subst he
      exact zmodPow_ne_one 2624747550333869278416773953 7 ((2624747550333869278416773953 - 1) / 16879) (by norm_num) (by decide)
    · have he : q = 208150935158385979 := (Nat.prime_dvd_prime_iff_eq hq (prime_208150935158385979)).mp hdvd
      subst he
      exact zmodPow_ne_one 2624747550333869278416773953 7 ((2624747550333869278416773953 - 1) / 208150935158385979) (by norm_num) (by decide)

theorem prime_115792089210356248762697446949407573529996955224135760342422259061068512044369 : Nat.Prime 115792089210356248762697446949407573529996955224135760342422259061068512044369 := by
  have h : 115792089210356248762697446949407573529996955224135760342422259061068512044369 - 1 = 2 ^ 4 * (3 * (71 * (131 * (373 * (3407 * (17449 * (38189 * (187019741 * (622491383 * (1002328039319 * (2624747550333869278416773953))))))))))) := by norm_num
  refine lucas_primality 115792089210356248762697446949407573529996955224135760342422259061068512044369 ((7 : Nat) : ZMod 115792089210356248762697446949407573529996955224135760342422259061068512044369) ?_ ?_
  · exact zmodPow_eq_one 115792089210356248762697446949407573529996955224135760342422259061068512044369 7 (115792089210356248762697446949407573529996955224135760342422259061068512044369 - 1) (by norm_num) (by decide)
  · intro q hq hdvd
    rw [h] at hdvd
    rcases (Nat.Prime.dvd_mul hq).mp hdvd with h1 | hdvd
    · have he : q = 2 := (Nat.prime_dvd_prime_iff_eq hq (by norm_num)).mp (hq.dvd_of_dvd_pow h1)
      subst he
      exact zmodPow_ne_one 115792089210356248762697446949407573529996955224135760342422259061068512044369 7 ((115792089210356248762697446949407573529996955224135760342422259061068512044369 - 1) / 2) (by norm_num) (by decide)
    rcases (Nat.Prime.dvd_mul hq).mp hdvd with h1 | hdvd
    · have he : q = 3 := (Nat.prime_dvd_prime_iff_eq hq (by norm_num)).mp h1
      subst he
      exact zmodPow_ne_one 115792089210356248762697446949407573529996955224135760342422259061068512044369 7 ((115792089210356248762697446949407573529996955224135760342422259061068512044369 - 1) / 3) (by norm_num) (by decide)
    rcases (Nat.Prime.dvd_mul hq).mp hdvd with h1 | hdvd
    · have he : q = 71 := (Nat.prime_dvd_prime_iff_eq hq (by norm_num)).mp h1
      subst he
      exact zmodPow_ne_one 115792089210356248762697446949407573529996955224135760342422259061068512044369 7 ((115792089210356248762697446949407573529996955224135760342422259061068512044369 - 1) / 71) (by norm_num) (by decide)
    rcases (Nat.Prime.dvd_mul hq).mp hdvd with h1 | hdvd
    · have he : q = 131 := (Nat.prime_dvd_prime_iff_eq hq (by norm_num)).mp h1
      subst he
      exact zmodPow_ne_one 115792089210356248762697446949407573529996955224135760342422259061068512044369 7 ((115792089210356248762697446949407573529996955224135760342422259061068512044369 - 1) / 131) (by norm_num) (by decide)
    rcases (Nat.Prime.dvd_mul hq).mp hdvd with h1 | hdvd
    · have he : q = 373 := (Nat.prime_dvd_prime_iff_eq hq (by norm_num)).mp h1
      subst he
      exact zmodPow_ne_one 115792089210356248762697446949407573529996955224135760342422259061068512044369 7 ((115792089210356248762697446949407573529996955224135760342422259061068512044369 - 1) / 373) (by norm_num) (by decide)
    rcases (Nat.Prime.dvd_mul hq).mp hdvd with h1 | hdvd
    · have he : q = 3407 := (Nat.prime_dvd_prime_iff_eq hq (by norm_num)).mp h1
      subst he
      exact zmodPow_ne_one 115792089210356248762697446949407573529996955224135760342422259061068512044369 7 ((115792089210356248762697446949407573529996955224135760342422259061068512044369 - 1) / 3407) (by norm_num) (by decide)
    rcases (Nat.Prime.dvd_mul hq).mp hdvd with h1 | hdvd
    · have he : q = 17449 := (Nat.prime_dvd_prime_iff_eq hq (by norm_num)).mp h1
      subst he
      exact zmodPow_ne_one 115792089210356248762697446949407573529996955224135760342422259061068512044369 7 ((115792089210356248762697446949407573529996955224135760342422259061068512044369 - 1) / 17449) (by norm_num) (by decide)
    rcases (Nat.Prime.dvd_mul hq).mp hdvd with h1 | hdvd
    · have he : q = 38189 := (Nat.prime_dvd_prime_iff_eq hq (by norm_num)).mp h1
      subst he
      exact zmodPow_ne_one 115792089210356248762697446949407573529996955224135760342422259061068512044369 7 ((115792089210356248762697446949407573529996955224135760342422259061068512044369 - 1) / 38189) (by norm_num) (by decide)
    rcases (Nat.Prime.dvd_mul hq).mp hdvd with h1 | hdvd
    · have he : q = 187019741 := (Nat.prime_dvd_prime_iff_eq hq (prime_187019741)).mp h1
      subst he
      exact zmodPow_ne_one 115792089210356248762697446949407573529996955224135760342422259061068512044369 7 ((115792089210356248762697446949407573529996955224135760342422259061068512044369 - 1) / 187019741) (by norm_num) (by decide)
    rcases (Nat.Prime.dvd_mul hq).mp hdvd with h1 | hdvd
    · have he : q = 622491383 := (Nat.prime_dvd_prime_iff_eq hq (prime_622491383)).mp h1
      subst he
      exact zmodPow_ne_one 115792089210356248762697446949407573529996955224135760342422259061068512044369 7 ((115792089210356248762697446949407573529996955224135760342422259061068512044369 - 1) / 622491383) (by norm_num) (by decide)
    rcases (Nat.Prime.dvd_mul hq).mp hdvd with h1 | hdvd
    · have he : q = 1002328039319 := (Nat.prime_dvd_prime_iff_eq hq (prime_1002328039319)).mp h1
      subst he
      exact zmodPow_ne_one 115792089210356248762697446949407573529996955224135760342422259061068512044369 7 ((115792089210356248762697446949407573529996955224135760342422259061068512044369 - 1) / 1002328039319) (by norm_num) (by decide)
    · have he : q = 2624747550333869278416773953 := (Nat.prime_dvd_prime_iff_eq hq (prime_2624747550333869278416773953)).mp hdvd
      subst he
      exact zmodPow_ne_one 115792089210356248762697446949407573529996955224135760342422259061068512044369 7 ((115792089210356248762697446949407573529996955224135760342422259061068512044369 - 1) / 2624747550333869278416773953) (by norm_num) (by decide)

theorem prime_204061199 : Nat.Prime 204061199 := by
  have h : 204061199 - 1 = 2 * (11 * (23 * (107 * (3769)))) := by norm_num
  refine lucas_primality 204061199 ((11 : Nat) : ZMod 204061199) ?_ ?_
  · exact zmodPow_eq_one 204061199 11 (204061199 - 1) (by norm_num) (by decide)
  · intro q hq hdvd
    rw [h] at hdvd
    rcases (Nat.Prime.dvd_mul hq).mp hdvd with h1 | hdvd
    · have he : q = 2 := (Nat.prime_dvd_prime_iff_eq hq (by norm_num)).mp h1
      subst he
      exact zmodPow_ne_one 204061199 11 ((204061199 - 1) / 2) (by norm_num) (by decide)
    rcases (Nat.Prime.dvd_mul hq).mp hdvd with h1 | hdvd
    · have he : q = 11 := (Nat.prime_dvd_prime_iff_eq hq (by norm_num)).mp h1
      subst he
      exact zmodPow_ne_one 204061199 11 ((204061199 - 1) / 11) (by norm_num) (by decide)
    rcases (Nat.Prime.dvd_mul hq).mp hdvd with h1 | hdvd
    · have he : q = 23 := (Nat.prime_dvd_prime_iff_eq hq (by norm_num)).mp h1
      subst he
      exact zmodPow_ne_one 204061199 11 ((204061199 - 1) / 23) (by norm_num) (by decide)
    rcases (Nat.Prime.dvd_mul hq).mp hdvd with h1 | hdvd
    · have he : q = 107 := (Nat.prime_dvd_prime_iff_eq hq (by norm_num)).mp h1
      subst he
      exact zmodPow_ne_one 204061199 11 ((204061199 - 1) / 107) (by norm_num) (by decide)
    · have he : q = 3769 := (Nat.prime_dvd_prime_iff_eq hq (by norm_num)).mp hdvd
      subst he
      exact zmodPow_ne_one 204061199 11 ((204061199 - 1) / 3769) (by norm_num) (by decide)

theorem prime_34282281433 : Nat.Prime 34282281433 := by
  have h : 34282281433 - 1 = 2 ^ 3 * (3 * (7 * (204061199))) := by norm_num
  refine lucas_primality 34282281433 ((17 : Nat) : ZMod 34282281433) ?_ ?_
  · exact zmodPow_eq_one 34282281433 17 (34282281433 - 1) (by norm_num) (by decide)
  · intro q hq hdvd
    rw [h] at hdvd
    rcases (Nat.Prime.dvd_mul hq).mp hdvd with h1 | hdvd
    · have he : q = 2 := (Nat.prime_dvd_prime_iff_eq hq (by norm_num)).mp (hq.dvd_of_dvd_pow h1)
      subst he
      exact zmodPow_ne_one 34282281433 17 ((34282281433 - 1) / 2) (by norm_num) (by decide)
    rcases (Nat.Prime.dvd_mul hq).mp hdvd with h1 | hdvd
    · have he : q = 3 := (Nat.prime_dvd_prime_iff_eq hq (by norm_num)).mp h1
      subst he
      exact zmodPow_ne_one 34282281433 17 ((34282281433 - 1) / 3) (by norm_num) (by decide)
    rcases (Nat.Prime.dvd_mul hq).mp hdvd with h1 | hdvd
    · have he : q = 7 := (Nat.prime_dvd_prime_iff_eq hq (by norm_num)).mp h1
      subst he
      exact zmodPow_ne_one 34282281433 17 ((34282281433 - 1) / 7) (by norm_num) (by decide)
    · have he : q = 204061199 := (Nat.prime_dvd_prime_iff_eq hq (prime_204061199)).mp hdvd
      subst he
      exact zmodPow_ne_one 34282281433 17 ((34282281433 - 1) / 204061199) (by norm_num) (by decide)

theorem prime_66417393611 : Nat.Prime 66417393611 := by
  have h : 66417393611 - 1 = 2 * (5 * (53 * (173 * (197 * (3677))))) := by norm_num
  refine lucas_primality 66417393611 ((6 : Nat) : ZMod 66417393611) ?_ ?_
  · exact zmodPow_eq_one 66417393611 6 (66417393611 - 1) (by norm_num) (by decide)
  · intro q hq hdvd
    rw [h] at hdvd
    rcases (Nat.Prime.dvd_mul hq).mp hdvd with h1 | hdvd
    · have he : q = 2 := (Nat.prime_dvd_prime_iff_eq hq (by norm_num)).mp h1
      subst he
      exact zmodPow_ne_one 66417393611 6 ((66417393611 - 1) / 2) (by norm_num) (by decide)
    rcases (Nat.Prime.dvd_mul hq).mp hdvd with h1 | hdvd
    · have he : q = 5 := (Nat.prime_dvd_prime_iff_eq hq (by norm_num)).mp h1
      subst he
      exact zmodPow_ne_one 66417393611 6 ((66417393611 - 1) / 5) (by norm_num) (by decide)
    rcases (Nat.Prime.dvd_mul hq).mp hdvd with h1 | hdvd
    · have he : q = 53 := (Nat.prime_dvd_prime_iff_eq hq (by norm_num)).mp h1
      subst he
      exact zmodPow_ne_one 66417393611 6 ((66417393611 - 1) / 53) (by norm_num) (by decide)
    rcases (Nat.Prime.dvd_mul hq).mp hdvd with h1 | hdvd
    · have he : q = 173 := (Nat.prime_dvd_prime_iff_eq hq (by norm_num)).mp h1
      subst he
      exact zmodPow_ne_one 66417393611 6 ((66417393611 - 1) / 173) (by norm_num) (by decide)
    rcases (Nat.Prime.dvd_mul hq).mp hdvd with h1 | hdvd
    · have he : q = 197 := (Nat.prime_dvd_prime_iff_eq hq (by norm_num)).mp h1
      subst he
      exact zmodPow_ne_one 66417393611 6 ((66417393611 - 1) / 197) (by norm_num) (by decide)
    · have he : q = 3677 := (Nat.prime_dvd_prime_iff_eq hq (by norm_num)).mp hdvd
      subst he
      exact zmodPow_ne_one 66417393611 6 ((66417393611 - 1) / 3677) (by norm_num) (by decide)

theorem prime_11290956913871 : Nat.Prime 11290956913871 := by
  have h : 11290956913871 - 1 = 2 * (5 * (17 * (66417393611))) := by norm_num
  refine lucas_primality 11290956913871 ((13 : Nat) : ZMod 11290956913871) ?_ ?_
  · exact zmodPow_eq_one 11290956913871 13 (11290956913871 - 1) (by norm_num) (by decide)
  · intro q hq hdvd
    rw [h] at hdvd
    rcases (Nat.Prime.dvd_mul hq).mp hdvd with h1 | hdvd
    · have he : q = 2 := (Nat.prime_dvd_prime_iff_eq hq (by norm_num)).mp h1
      subst he
      exact zmodPow_ne_one 11290956913871 13 ((11290956913871 - 1) / 2) (by norm_num) (by decide)
    rcases (Nat.Prime.dvd_mul hq).mp hdvd with h1 | hdvd
    · have he : q = 5 := (Nat.prime_dvd_prime_iff_eq hq (by norm_num)).mp h1
      subst he
      exact zmodPow_ne_one 11290956913871 13 ((11290956913871 - 1) / 5) (by norm_num) (by decide)
    rcases (Nat.Prime.dvd_mul hq).mp hdvd with h1 | hdvd
    · have he : q = 17 := (Nat.prime_dvd_prime_iff_eq hq (by norm_num)).mp h1
      subst he
      exact zmodPow_ne_one 11290956913871 13 ((11290956913871 - 1) / 17) (by norm_num) (by decide)
    · have he : q = 66417393611 := (Nat.prime_dvd_prime_iff_eq hq (prime_66417393611)).mp hdvd
      subst he
      exact zmodPow_ne_one 11290956913871 13 ((11290956913871 - 1) / 66417393611) (by norm_num) (by decide)

theorem prime_46076956964474543 : Nat.Prime 46076956964474543 := by
  have h : 46076956964474543 - 1 = 2 * (23 * (18169 * (78283 * (704251)))) := by norm_num
  refine lucas_primality 46076956964474543 ((5 : Nat) : ZMod 46076956964474543) ?_ ?_
  · exact zmodPow_eq_one 46076956964474543 5 (46076956964474543 - 1) (by norm_num) (by decide)
  · intro q hq hdvd
    rw [h] at hdvd
    rcases (Nat.Prime.dvd_mul hq).mp hdvd with h1 | hdvd
    · have he : q = 2 := (Nat.prime_dvd_prime_iff_eq hq (by norm_num)).mp h1
      subst he
      exact zmodPow_ne_one 46076956964474543 5 ((46076956964474543 - 1) / 2) (by norm_num) (by decide)
    rcases (Nat.Prime.dvd_mul hq).mp hdvd with h1 | hdvd
    · have he : q = 23 := (Nat.prime_dvd_prime_iff_eq hq (by norm_num)).mp h1
      subst he
      exact zmodPow_ne_one 46076956964474543 5 ((46076956964474543 - 1) / 23) (by norm_num) (by decide)
    rcases (Nat.Prime.dvd_mul hq).mp hdvd with h1 | hdvd
    · have he : q = 18169 := (Nat.prime_dvd_prime_iff_eq hq (by norm_num)).mp h1
      subst he
      exact zmodPow_ne_one 46076956964474543 5 ((46076956964474543 - 1) / 18169) (by norm_num) (by decide)
    rcases (Nat.Prime.dvd_mul hq).mp hdvd with h1 | hdvd
    · have he : q = 78283 := (Nat.prime_dvd_prime_iff_eq hq (by norm_num)).mp h1
      subst he
      exact zmodPow_ne_one 46076956964474543 5 ((46076956964474543 - 1) / 78283) (by norm_num) (by decide)
    · have he : q = 704251 := (Nat.prime_dvd_prime_iff_eq hq (by norm_num)).mp hdvd
      subst he
      exact zmodPow_ne_one 46076956964474543 5 ((46076956964474543 - 1) / 704251) (by norm_num) (by decide)

theorem prime_774023187263532362759620327192479577272145303 : Nat.Prime 774023187263532362759620327192479577272145303 := by
  have h : 774023187263532362759620327192479577272145303 - 1 = 2 * (3 ^ 2 * (2411 * (34282281433 * (11290956913871 * (46076956964474543))))) := by norm_num
  refine lucas_primality 774023187263532362759620327192479577272145303 ((3 : Nat) : ZMod 774023187263532362759620327192479577272145303) ?_ ?_
  · exact zmodPow_eq_one 774023187263532362759620327192479577272145303 3 (774023187263532362759620327192479577272145303 - 1) (by norm_num) (by decide)
  · intro q hq hdvd
    rw [h] at hdvd
    rcases (Nat.Prime.dvd_mul hq).mp hdvd with h1 | hdvd
    · have he : q = 2 := (Nat.prime_dvd_prime_iff_eq hq (by norm_num)).mp h1
      subst he
      exact zmodPow_ne_one 774023187263532362759620327192479577272145303 3 ((774023187263532362759620327192479577272145303 - 1) / 2) (by norm_num) (by decide)
    rcases (Nat.Prime.dvd_mul hq).mp hdvd with h1 | hdvd
    · have he : q = 3 := (Nat.prime_dvd_prime_iff_eq hq (by norm_num)).mp (hq.dvd_of_dvd_pow h1)
      subst he
      exact zmodPow_ne_one 774023187263532362759620327192479577272145303 3 ((774023187263532362759620327192479577272145303 - 1) / 3) (by norm_num) (by decide)
    rcases (Nat.Prime.dvd_mul hq).mp hdvd with h1 | hdvd
    · have he : q = 2411 := (Nat.prime_dvd_prime_iff_eq hq (by norm_num)).mp h1
      subst he
      exact zmodPow_ne_one 774023187263532362759620327192479577272145303 3 ((774023187263532362759620327192479577272145303 - 1) / 2411) (by norm_num) (by decide)
    rcases (Nat.Prime.dvd_mul hq).mp hdvd with h1 | hdvd
    · have he : q = 34282281433 := (Nat.prime_dvd_prime_iff_eq hq (prime_34282281433)).mp h1
      subst he
      exact zmodPow_ne_one 774023187263532362759620327192479577272145303 3 ((774023187263532362759620327192479577272145303 - 1) / 34282281433) (by norm_num) (by decide)
    rcases (Nat.Prime.dvd_mul hq).mp hdvd with h1 | hdvd
    · have he : q = 11290956913871 := (Nat.prime_dvd_prime_iff_eq hq (prime_11290956913871)).mp h1
      subst he
      exact zmodPow_ne_one 774023187263532362759620327192479577272145303 3 ((774023187263532362759620327192479577272145303 - 1) / 11290956913871) (by norm_num) (by decide)
    · have he : q = 46076956964474543 := (Nat.prime_dvd_prime_iff_eq hq (prime_46076956964474543)).mp hdvd
      subst he
      exact zmodPow_ne_one 774023187263532362759620327192479577272145303 3 ((774023187263532362759620327192479577272145303 - 1) / 46076956964474543) (by norm_num) (by decide)

theorem prime_835945042244614951780389953367877943453916927241 : Nat.Prime 835945042244614951780389953367877943453916927241 := by
  have h : 835945042244614951780389953367877943453916927241 - 1 = 2 ^ 3 * (3 ^ 3 * (5 * (774023187263532362759620327192479577272145303))) := by norm_num
  refine lucas_primality 835945042244614951780389953367877943453916927241 ((11 : Nat) : ZMod 835945042244614951780389953367877943453916927241) ?_ ?_
  · exact zmodPow_eq_one 835945042244614951780389953367877943453916927241 11 (835945042244614951780389953367877943453916927241 - 1) (by norm_num) (by decide)
  · intro q hq hdvd
    rw [h] at hdvd
    rcases (Nat.Prime.dvd_mul hq).mp hdvd with h1 | hdvd
    · have he : q = 2 := (Nat.prime_dvd_prime_iff_eq hq (by norm_num)).mp (hq.dvd_of_dvd_pow h1)
      subst he
      exact zmodPow_ne_one 835945042244614951780389953367877943453916927241 11 ((835945042244614951780389953367877943453916927241 - 1) / 2) (by norm_num) (by decide)
    rcases (Nat.Prime.dvd_mul hq).mp hdvd with h1 | hdvd
    · have he : q = 3 := (Nat.prime_dvd_prime_iff_eq hq (by norm_num)).mp (hq.dvd_of_dvd_pow h1)
      subst he
      exact zmodPow_ne_one 835945042244614951780389953367877943453916927241 11 ((835945042244614951780389953367877943453916927241 - 1) / 3) (by norm_num) (by decide)
    rcases (Nat.Prime.dvd_mul hq).mp hdvd with h1 | hdvd
    · have he : q = 5 := (Nat.prime_dvd_prime_iff_eq hq (by norm_num)).mp h1
      subst he
      exact zmodPow_ne_one 835945042244614951780389953367877943453916927241 11 ((835945042244614951780389953367877943453916927241 - 1) / 5) (by norm_num) (by decide)
    · have he : q = 774023187263532362759620327192479577272145303 := (Nat.prime_dvd_prime_iff_eq hq (prime_774023187263532362759620327192479577272145303)).mp hdvd
      subst he
      exact zmodPow_ne_one 835945042244614951780389953367877943453916927241 11 ((835945042244614951780389953367877943453916927241 - 1) / 774023187263532362759620327192479577272145303) (by norm_num) (by decide)

theorem prime_115792089210356248762697446949407573530086143415290314195533631308867097853951 : Nat.Prime 115792089210356248762697446949407573530086143415290314195533631308867097853951 := by
  have h : 115792089210356248762697446949407573530086143415290314195533631308867097853951 - 1 = 2 * (3 * (5 ^ 2 * (17 * (257 * (641 * (1531 * (65537 * (490463 * (6700417 * (835945042244614951780389953367877943453916927241)))))))))) := by norm_num
  refine lucas_primality 115792089210356248762697446949407573530086143415290314195533631308867097853951 ((6 : Nat) : ZMod 115792089210356248762697446949407573530086143415290314195533631308867097853951) ?_ ?_
  · exact zmodPow_eq_one 115792089210356248762697446949407573530086143415290314195533631308867097853951 6 (115792089210356248762697446949407573530086143415290314195533631308867097853951 - 1) (by norm_num) (by decide)
  · intro q hq hdvd
    rw [h] at hdvd
    rcases (Nat.Prime.dvd_mul hq).mp hdvd with h1 | hdvd
    · have he : q = 2 := (Nat.prime_dvd_prime_iff_eq hq (by norm_num)).mp h1
      subst he
      exact zmodPow_ne_one 115792089210356248762697446949407573530086143415290314195533631308867097853951 6 ((115792089210356248762697446949407573530086143415290314195533631308867097853951 - 1) / 2) (by norm_num) (by decide)
    rcases (Nat.Prime.dvd_mul hq).mp hdvd with h1 | hdvd
    · have he : q = 3 := (Nat.prime_dvd_prime_iff_eq hq (by norm_num)).mp h1
      subst he
      exact zmodPow_ne_one 115792089210356248762697446949407573530086143415290314195533631308867097853951 6 ((115792089210356248762697446949407573530086143415290314195533631308867097853951 - 1) / 3) (by norm_num) (by decide)
    rcases (Nat.Prime.dvd_mul hq).mp hdvd with h1 | hdvd
    · have he : q = 5 := (Nat.prime_dvd_prime_iff_eq hq (by norm_num)).mp (hq.dvd_of_dvd_pow h1)
      subst he
      exact zmodPow_ne_one 115792089210356248762697446949407573530086143415290314195533631308867097853951 6 ((115792089210356248762697446949407573530086143415290314195533631308867097853951 - 1) / 5) (by norm_num) (by decide)
    rcases (Nat.Prime.dvd_mul hq).mp hdvd with h1 | hdvd
    · have he : q = 17 := (Nat.prime_dvd_prime_iff_eq hq (by norm_num)).mp h1
      subst he
      exact zmodPow_ne_one 115792089210356248762697446949407573530086143415290314195533631308867097853951 6 ((115792089210356248762697446949407573530086143415290314195533631308867097853951 - 1) / 17) (by norm_num) (by decide)
    rcases (Nat.Prime.dvd_mul hq).mp hdvd with h1 | hdvd
    · have he : q = 257 := (Nat.prime_dvd_prime_iff_eq hq (by norm_num)).mp h1
      subst he
      exact zmodPow_ne_one 115792089210356248762697446949407573530086143415290314195533631308867097853951 6 ((115792089210356248762697446949407573530086143415290314195533631308867097853951 - 1) / 257) (by norm_num) (by decide)
    rcases (Nat.Prime.dvd_mul hq).mp hdvd with h1 | hdvd
    · have he : q = 641 := (Nat.prime_dvd_prime_iff_eq hq (by norm_num)).mp h1
      subst he
      exact zmodPow_ne_one 115792089210356248762697446949407573530086143415290314195533631308867097853951 6 ((115792089210356248762697446949407573530086143415290314195533631308867097853951 - 1) / 641) (by norm_num) (by decide)
    rcases (Nat.Prime.dvd_mul hq).mp hdvd with h1 | hdvd
    · have he : q = 1531 := (Nat.prime_dvd_prime_iff_eq hq (by norm_num)).mp h1
      subst he
      exact zmodPow_ne_one 115792089210356248762697446949407573530086143415290314195533631308867097853951 6 ((115792089210356248762697446949407573530086143415290314195533631308867097853951 - 1) / 1531) (by norm_num) (by decide)
    rcases (Nat.Prime.dvd_mul hq).mp hdvd with h1 | hdvd
    · have he : q = 65537 := (Nat.prime_dvd_prime_iff_eq hq (by norm_num)).mp h1
      subst he
      exact zmodPow_ne_one 115792089210356248762697446949407573530086143415290314195533631308867097853951 6 ((115792089210356248762697446949407573530086143415290314195533631308867097853951 - 1) / 65537) (by norm_num) (by decide)
    rcases (Nat.Prime.dvd_mul hq).mp hdvd with h1 | hdvd
    · have he : q = 490463 := (Nat.prime_dvd_prime_iff_eq hq (by norm_num)).mp h1
      subst he
      exact zmodPow_ne_one 115792089210356248762697446949407573530086143415290314195533631308867097853951 6 ((115792089210356248762697446949407573530086143415290314195533631308867097853951 - 1) / 490463) (by norm_num) (by decide)
    rcases (Nat.Prime.dvd_mul hq).mp hdvd with h1 | hdvd
    · have he : q = 6700417 := (Nat.prime_dvd_prime_iff_eq hq (by norm_num)).mp h1
      subst he
      exact zmodPow_ne_one 115792089210356248762697446949407573530086143415290314195533631308867097853951 6 ((115792089210356248762697446949407573530086143415290314195533631308867097853951 - 1) / 6700417) (by norm_num) (by decide)
    · have he : q = 835945042244614951780389953367877943453916927241 := (Nat.prime_dvd_prime_iff_eq hq (prime_835945042244614951780389953367877943453916927241)).mp hdvd
      subst he
      exact zmodPow_ne_one 115792089210356248762697446949407573530086143415290314195533631308867097853951 6 ((115792089210356248762697446949407573530086143415290314195533631308867097853951 - 1) / 835945042244614951780389953367877943453916927241) (by norm_num) (by decide)


/-! ### NIST P-521 constants, from `p521/src/arithmetic.rs`

The `WeierstrassCurve` instance for `NistP521` defines `EQUATION_A`,
`EQUATION_B` and `GENERATOR` through `FieldElement::from_be_hex` on
big-endian hex strings; each constant below is the numeric value of the
corresponding hex string in the source.
-/

namespace NistP521

/-- Modelled from the spec: the NIST P-521 base-field prime `p = 2^521 - 1`
(the field-element module defining the modulus is outside the sources under
verification; the spec fixes it as the "Field prime (p): modulus defining
the base field over which curve coordinates live"). -/
def p : Nat := 2 ^ 521 - 1

/-- `EQUATION_A` from `p521/src/arithmetic.rs` (hex string passed to
`FieldElement::from_be_hex`). -/
def EQUATION_A : Nat :=
  0x01fffffffffffffffffffffffffffffffffffffffffffffffffffffffffffffffffffffffffffffffffffffffffffffffffffffffffffffffffffffffffffffffffc

/-- `EQUATION_B` from `p521/src/arithmetic.rs`. -/
def EQUATION_B : Nat :=
  0x0051953eb9618e1c9a1f929a21a0b68540eea2da725b99b315f3b8b489918ef109e156193951ec7e937b1652c0bd3bb1bf073573df883d2c34f1ef451fd46b503f00

/-- `GENERATOR` from `p521/src/arithmetic.rs`: the affine pair `(Gx, Gy)`. -/
def GENERATOR : Nat × Nat :=
  (0x00c6858e06b70404e9cd9e3ecb662395b4429c648139053fb521f828af606b4d3dbaa14b5e77efe75928fe1dc127a2ffa8de3348b3c1856a429bf97e7e31c2e5bd66,
   0x011839296a789a3bc0045c8a5fb42c7d1bd998f54449579b446817afbd17273e662c97ee72995ef42640c550b9013fad0761353c7086a272c24088be94769fd16650)

end NistP521

/-- C1: the P-521 generator constant lies on the curve: for
`GENERATOR = (Gx, Gy)`, `EQUATION_A = a`, `EQUATION_B = b`, the affine pair
satisfies `Gy² = Gx³ + a·Gx + b` modulo the field prime `p = 2^521 - 1`,
with each constant read as the canonical integer denoted by its
`from_be_hex` string. -/
theorem c1_p521_generator_on_curve :
    NistP521.GENERATOR.2 ^ 2 % NistP521.p =
      (NistP521.GENERATOR.1 ^ 3 + NistP521.EQUATION_A * NistP521.GENERATOR.1
        + NistP521.EQUATION_B) % NistP521.p := by
  decide

/-- C3: the P-521 curve coefficient `EQUATION_A` is congruent to `-3`
modulo the field prime `p = 2^521 - 1`: the constant `01ff...fffc` equals
`p - 3`, so the implemented short-Weierstrass equation has `a = -3`. -/
theorem c3_p521_equation_a_is_minus_three :
    NistP521.EQUATION_A = NistP521.p - 3
      ∧ (NistP521.EQUATION_A + 3) % NistP521.p = 0 := by
  constructor
  · decide
  · decide

/-! ### NIST P-256 constants, from `p256/src/lib.rs` -/

namespace NistP256

/-- `Curve::ORDER` for `NistP256` from `p256/src/lib.rs`:
`U256::from_be_hex("ffffffff00000000ffffffffffffffffbce6faada7179e84f3b9cac2fc632551")`. -/
def ORDER : Nat := 0xffffffff00000000ffffffffffffffffbce6faada7179e84f3b9cac2fc632551

/-- `PointCompression::COMPRESS_POINTS` for `NistP256` from
`p256/src/lib.rs`. -/
def COMPRESS_POINTS : Bool := false

/-- `PointCompaction::COMPACT_POINTS` for `NistP256` from
`p256/src/lib.rs`. -/
def COMPACT_POINTS : Bool := false

/-- The NIST P-256 base-field prime, as given in the crate documentation of
`p256/src/lib.rs`: `p = (2^224)(2^32 - 1) + 2^192 + 2^96 - 1`. -/
def p : Nat := 2 ^ 224 * (2 ^ 32 - 1) + 2 ^ 192 + 2 ^ 96 - 1

/-- The curve coefficient `a = -3 mod p`, from the crate documentation of
`p256/src/lib.rs`: its equation is `y² = x³ - 3x + b`. -/
def a : Nat := p - 3

/-- The curve coefficient `b`, the decimal constant in the crate
documentation of `p256/src/lib.rs`. -/
def b : Nat :=
  41058363725152142129326129780047268409114441015993725554835256314039467401291

/-- Modelled from the spec: x-coordinate of the NIST P-256 generator `G`
(the curve-parameter provider supplies `G` as an immutable constant; the
value is from FIPS 186-4, which the crate documentation references, and is
not present in the sources under verification). -/
def gx : Nat := 0x6b17d1f2e12c4247f8bce6e563a440f277037d812deb33a0f4a13945d898c296

/-- Modelled from the spec: y-coordinate of the NIST P-256 generator `G`
(FIPS 186-4 value, see `gx`). -/
def gy : Nat := 0x4fe342e2fe1a7f9b8ee7eb4a7c0f9e162bce33576b315ececbb6406837bf51f5

end NistP256

/-- C2: the `ORDER` constant of `NistP256` equals the integer
`ffffffff00000000ffffffffffffffffbce6faada7179e84f3b9cac2fc632551`
(big-endian hex, shown here in decimal), and this integer is prime, so it
is a valid modulus for scalar arithmetic as the group order `n`. -/
theorem c2_p256_order_value_and_prime :
    NistP256.ORDER =
        115792089210356248762697446949407573529996955224135760342422259061068512044369
      ∧ Nat.Prime NistP256.ORDER :=
  ⟨by decide,
    prime_115792089210356248762697446949407573529996955224135760342422259061068512044369⟩

/-! ### NIST P-256 point engine

The arithmetic back-end of the `p256` crate is outside the sources under
verification, so the point engine is modelled from §3 and §4.3 of the
specification: projective (Jacobian-style) points `(X, Y, Z)` denoting
`(X/Z², Y/Z³)` with identity `Z = 0`, the short-Weierstrass group law, and
scalar multiplication by fixed-width double-and-add over all 256 bits.
-/

namespace NistP256

/-- Field multiplication modulo the P-256 prime `p`. -/
def mulp (x y : Nat) : Nat := x * y % p

/-- Field addition modulo `p`. -/
def addp (x y : Nat) : Nat := (x + y) % p

/-- Field subtraction modulo `p` (total on `Nat` operands). -/
def subp (x y : Nat) : Nat := (x % p + (p - y % p)) % p

/-- Modelled from the spec: `ProjectivePoint` — `(X, Y, Z)` field elements
representing the affine point `(X/Z², Y/Z³)`; the identity is `Z = 0`
(§3 of the spec; the Rust type `p256::ProjectivePoint` is re-exported by
`p256/src/lib.rs` from the missing arithmetic module). -/
structure ProjectivePoint where
  x : Nat
  y : Nat
  z : Nat
  deriving DecidableEq

/-- Modelled from the spec: `AffinePoint` — a pair `(x, y)` of field
elements plus a distinguished point-at-infinity state represented as a tag
(§3 of the spec). -/
inductive AffinePoint where
  | infinity : AffinePoint
  | affine (x y : Nat) : AffinePoint
  deriving DecidableEq

/-- Modelled from the spec: the group identity `identity()` (§4.3),
a projective representative with `Z = 0`. -/
def identity : ProjectivePoint := ⟨1, 1, 0⟩

/-- Modelled from the spec: `generator()` (§4.3), the FIPS 186-4 base
point with `Z = 1`. -/
def generator : ProjectivePoint := ⟨gx, gy, 1⟩

/-- Modelled from the spec: point doubling `double(P)` (§4.3) by the
standard Jacobian doubling formulas over the field engine. When `Z = 0`
or `Y = 0` the result has `Z' = 0`, the identity. -/
def double (P : ProjectivePoint) : ProjectivePoint :=
  let s := mulp 4 (mulp P.x (mulp P.y P.y))
  let zsq := mulp P.z P.z
  let m := addp (mulp 3 (mulp P.x P.x)) (mulp a (mulp zsq zsq))
  let x3 := subp (mulp m m) (mulp 2 s)
  let y3 := subp (mulp m (subp s x3)) (mulp 8 (mulp (mulp P.y P.y) (mulp P.y P.y)))
  let z3 := mulp 2 (mulp P.y P.z)
  ⟨x3, y3, z3⟩

/-- Modelled from the spec: point addition `add(P, Q)` (§4.3): one group
law covering the cases `P = Q` (falls back to doubling), `P = -Q` (gives
the identity) and either argument at infinity, on Jacobian coordinates. -/
def add (P Q : ProjectivePoint) : ProjectivePoint :=
  if P.z % p = 0 then Q
  else if Q.z % p = 0 then P
  else
    let z1z1 := mulp P.z P.z
    let z2z2 := mulp Q.z Q.z
    let u1 := mulp P.x z2z2
    let u2 := mulp Q.x z1z1
    let s1 := mulp P.y (mulp z2z2 Q.z)
    let s2 := mulp Q.y (mulp z1z1 P.z)
    if u1 = u2 then
      if s1 = s2 then double P else identity
    else
      let h := subp u2 u1
      let r := subp s2 s1
      let h2 := mulp h h
      let h3 := mulp h h2
      let x3 := subp (subp (mulp r r) h3) (mulp 2 (mulp u1 h2))
      let y3 := subp (mulp r (subp (mulp u1 h2) x3)) (mulp s1 h3)
      let z3 := mulp h (mulp P.z Q.z)
      ⟨x3, y3, z3⟩

/-- Modelled from the spec: the double-and-add loop of `mul` (§4.3),
processing bit `i - 1` of the scalar at each step, most significant bit
first. Each step checks the §3 canonical-reduction invariant (every
field element stays in `[0, p)`, which `mulp`/`addp`/`subp` maintain)
before continuing. -/
def mulLoop (P : ProjectivePoint) (k : Nat) : Nat → ProjectivePoint → ProjectivePoint
  | 0, acc => acc
  | i + 1, acc =>
    let acc1 := double acc
    let acc2 := if k / 2 ^ i % 2 = 1 then add acc1 P else acc1
    if acc2.x < p ∧ acc2.y < p ∧ acc2.z < p then mulLoop P k i acc2 else identity

/-- Modelled from the spec: scalar multiplication `mul(P, scalar)` by
fixed-pattern double-and-add processing every bit of a fixed-width 256-bit
scalar (§4.3). -/
def mul (P : ProjectivePoint) (k : Nat) : ProjectivePoint :=
  mulLoop P k 256 identity

/-- Modelled from the spec: `to_affine` (§4.3), inverting `Z` via Fermat's
little theorem `z^(p-2) mod p` (§4.1) and normalizing `Z = 0` to the
affine infinity tag. -/
def toAffine (P : ProjectivePoint) : AffinePoint :=
  if P.z % p = 0 then .infinity
  else
    let zinv := powMod p P.z (p - 2)
    .affine (mulp P.x (mulp zinv zinv)) (mulp P.y (mulp zinv (mulp zinv zinv)))

end NistP256

/-- C4: for the P-256 generator `G` and the `ORDER` constant `n`:
`mul(G, 1) = G`, `mul(G, n) = identity()` and `mul(G, n+1) = G`, where
`mul` is scalar multiplication on `ProjectivePoint` (so scalars act modulo
`n`), results compared in affine coordinates. -/
theorem c4_p256_generator_order :
    NistP256.toAffine (NistP256.mul NistP256.generator 1)
        = NistP256.AffinePoint.affine NistP256.gx NistP256.gy
      ∧ NistP256.toAffine (NistP256.mul NistP256.generator NistP256.ORDER)
        = NistP256.AffinePoint.infinity
      ∧ NistP256.toAffine (NistP256.mul NistP256.generator (NistP256.ORDER + 1))
        = NistP256.AffinePoint.affine NistP256.gx NistP256.gy :=
  ⟨by decide, by decide, by decide⟩

/-! ### Byte serialization

Modelled from §6 of the spec: field elements serialize to a fixed
big-endian byte width equal to the bit length of the field rounded up to a
byte boundary (32 bytes for P-256). Bytes are modelled as `Nat` values
below 256 in a `List`.
-/

namespace NistP256

/-- Modelled from the spec: fixed-width big-endian byte serialization of an
integer (§6: fixed big-endian byte width). -/
def beBytes : Nat → Nat → List Nat
  | 0, _ => []
  | k + 1, x => beBytes k (x / 256) ++ [x % 256]

/-- Modelled from the spec: big-endian byte-string deserialization to an
integer (§6). -/
def fromBE (l : List Nat) : Nat := l.foldl (fun acc d => acc * 256 + d) 0

theorem beBytes_length (k : Nat) : ∀ x : Nat, (beBytes k x).length = k := by
  induction k with
  | zero => intro x; simp [beBytes]
  | succ k ih => intro x; simp [beBytes, ih]

theorem byte_recompose (k x : Nat) :
    x / 256 % 256 ^ k * 256 + x % 256 = x % 256 ^ (k + 1) := by
  have hk : (0 : Nat) < 256 ^ k := Nat.pos_pow_of_pos k (by norm_num)
  have h1 : x = 256 ^ (k + 1) * (x / 256 / 256 ^ k)
      + (x / 256 % 256 ^ k * 256 + x % 256) := by
    calc x = 256 * (x / 256) + x % 256 := (Nat.div_add_mod x 256).symm
    _ = 256 * (256 ^ k * (x / 256 / 256 ^ k) + x / 256 % 256 ^ k) + x % 256 := by
        rw [Nat.div_add_mod (x / 256) (256 ^ k)]
    _ = 256 ^ (k + 1) * (x / 256 / 256 ^ k) + (x / 256 % 256 ^ k * 256 + x % 256) := by
        ring
  have h2 : x / 256 % 256 ^ k * 256 + x % 256 < 256 ^ (k + 1) := by
    have hb : x / 256 % 256 ^ k < 256 ^ k := Nat.mod_lt _ hk
    have hr : x % 256 < 256 := Nat.mod_lt _ (by norm_num)
    have hp : (256 : Nat) ^ (k + 1) = 256 ^ k * 256 := by ring
    nlinarith [hb, hr]
  conv_rhs => rw [h1]
  rw [Nat.mul_add_mod, Nat.mod_eq_of_lt h2]

theorem fromBE_beBytes (k : Nat) : ∀ x : Nat, fromBE (beBytes k x) = x % 256 ^ k := by
  induction k with
  | zero => intro x; simp [beBytes, fromBE, Nat.mod_one]
  | succ k ih =>
    intro x
    have happ : fromBE (beBytes k (x / 256) ++ [x % 256])
        = fromBE (beBytes k (x / 256)) * 256 + x % 256 := by
      simp [fromBE, List.foldl_append]
    rw [beBytes, happ, ih, byte_recompose]

theorem take_of_append (l1 l2 : List Nat) (h : l1.length = 32) :
    (l1 ++ l2).take 32 = l1 := by
  rw [← h]
  exact List.take_left l1 l2

theorem drop_of_append (l1 l2 : List Nat) (h : l1.length = 32) :
    (l1 ++ l2).drop 32 = l2 := by
  rw [← h]
  exact List.drop_left l1 l2

/-! ### Field facts for P-256 -/

theorem p_prime : Nat.Prime p := by
  have h : p =
      115792089210356248762697446949407573530086143415290314195533631308867097853951 := by
    decide
  rw [h]
  exact prime_115792089210356248762697446949407573530086143415290314195533631308867097853951

instance fact_p_prime : Fact (Nat.Prime p) := ⟨p_prime⟩

instance neZero_p : NeZero p := ⟨by decide⟩

theorem natCast_inj_lt {x y : Nat} (hx : x < p) (hy : y < p)
    (h : ((x : ZMod p)) = (y : ZMod p)) : x = y := by
  have hv := congrArg ZMod.val h
  rwa [ZMod.val_cast_of_lt hx, ZMod.val_cast_of_lt hy] at hv

/-! ### SEC1 encoding layer

Modelled from §4.4 of the spec: `encode_uncompressed`, `encode_compressed`
and `decode` with auto-detection by the leading tag byte, plus the error
taxonomy of §7.
-/

/-- Modelled from the spec: the `PointDecodingError` taxonomy of §7
(malformed byte length, unrecognized tag, coordinate out of field range,
point not on the curve, and `NotQuadraticResidue` surfaced through point
decompression). -/
inductive PointDecodingError where
  | invalidTag : PointDecodingError
  | invalidLength : PointDecodingError
  | coordinateOutOfRange : PointDecodingError
  | notOnCurve : PointDecodingError
  | notQuadraticResidue : PointDecodingError
  deriving DecidableEq

/-- Modelled from the spec: `is_on_curve` (§4.3), evaluating the
Weierstrass equation `y² = x³ + a·x + b` over the field engine. -/
def onCurve (x y : Nat) : Bool := y * y % p == (x * x * x + a * x + b) % p

/-- Modelled from the spec: `sqrt` (§4.1) by the exponentiation formula
`r^((p+1)/4) mod p`, valid since `p ≡ 3 (mod 4)`. -/
def sqrtP (r : Nat) : Nat := powMod p r ((p + 1) / 4)

/-- Modelled from the spec: `encode_uncompressed` (§4.4): 1-byte tag `0x04`
followed by fixed-width big-endian `x` then `y`; the identity only has the
explicit single-byte `0x00` form. -/
def encodeUncompressed : AffinePoint → List Nat
  | .infinity => [0]
  | .affine x y => 4 :: (beBytes 32 x ++ beBytes 32 y)

/-- Modelled from the spec: `encode_compressed` (§4.4): 1-byte tag
`0x02`/`0x03` encoding the parity of `y`, followed by big-endian `x`. -/
def encodeCompressed : AffinePoint → List Nat
  | .infinity => [0]
  | .affine x y => (2 + y % 2) :: beBytes 32 x

/-- Modelled from the spec: `decode` (§4.4), auto-detecting the form by
the leading tag byte; decompression recovers `y` via `sqrt` on the curve
equation at `x` and picks the root whose parity matches the tag. -/
def decode (bs : List Nat) : Except PointDecodingError AffinePoint :=
  match bs with
  | [] => .error .invalidLength
  | t :: rest =>
    if t = 4 then
      if rest.length = 64 then
        let x := fromBE (rest.take 32)
        let y := fromBE (rest.drop 32)
        if x < p then
          if y < p then
            if onCurve x y then .ok (.affine x y) else .error .notOnCurve
          else .error .coordinateOutOfRange
        else .error .coordinateOutOfRange
      else .error .invalidLength
    else if t = 2 ∨ t = 3 then
      if rest.length = 32 then
        let x := fromBE rest
        if x < p then
          let rhs := (x * x * x + a * x + b) % p
          let y0 := sqrtP rhs
          if y0 * y0 % p = rhs then
            .ok (.affine x (if y0 % 2 = t - 2 then y0 else (p - y0) % p))
          else .error .notQuadraticResidue
        else .error .coordinateOutOfRange
      else .error .invalidLength
    else .error .invalidTag

/-- Modelled from the spec: default SEC1 serialization of a point, using
the compressed form exactly when the curve's `PointCompression` parameter
requests it (§4.4 and the design note on feature-gated compression). -/
def toSec1Bytes (P : AffinePoint) : List Nat :=
  if COMPRESS_POINTS then encodeCompressed P else encodeUncompressed P

/-! ### Square-root correctness over the P-256 field -/

theorem sqrtP_lt (r : Nat) : sqrtP r < p := powMod_lt p r _ (by decide)

theorem cast_sqrtP (r : Nat) :
    ((sqrtP r : Nat) : ZMod p) = ((r : ZMod p)) ^ ((p + 1) / 4) :=
  (zmodPow_eq p r ((p + 1) / 4) (by decide)).symm

theorem zmod_sq_pow (Y : ZMod p) :
    (Y * Y) ^ ((p + 1) / 4) * (Y * Y) ^ ((p + 1) / 4) = Y * Y := by
  by_cases hY : Y = 0
  · subst hY
    simp [zero_pow (show (p + 1) / 4 ≠ 0 by decide)]
  · have hfermat : Y ^ (p - 1) = 1 := ZMod.pow_card_sub_one_eq_one hY
    rw [← pow_two Y, ← pow_mul, ← pow_add]
    have he : 2 * ((p + 1) / 4) + 2 * ((p + 1) / 4) = (p - 1) + 2 := by
      have h4 : (p + 1) / 4 * 4 = p + 1 := Nat.div_mul_cancel (by decide)
      have hp1 : (1 : Nat) ≤ p := by decide
      omega
    rw [he, pow_add, hfermat, one_mul, pow_two]

theorem sqrt_sq (y : Nat) :
    sqrtP (y * y % p) * sqrtP (y * y % p) % p = y * y % p := by
  have hp0 : (0 : Nat) < p := by decide
  have hcast : ((sqrtP (y * y % p) * sqrtP (y * y % p) % p : Nat) : ZMod p)
      = ((y * y % p : Nat) : ZMod p) := by
    rw [ZMod.natCast_mod, Nat.cast_mul, cast_sqrtP, ZMod.natCast_mod, Nat.cast_mul]
    exact zmod_sq_pow ((y : ZMod p))
  exact natCast_inj_lt (Nat.mod_lt _ hp0) (Nat.mod_lt _ hp0) hcast

theorem sqrt_choose (y : Nat) (hy : y < p) :
    (if sqrtP (y * y % p) % 2 = y % 2 then sqrtP (y * y % p)
      else (p - sqrtP (y * y % p)) % p) = y := by
  have hp0 : (0 : Nat) < p := by decide
  have hy0lt : sqrtP (y * y % p) < p := sqrtP_lt _
  have hsq := sqrt_sq y
  have hc : ((sqrtP (y * y % p) : Nat) : ZMod p) * ((sqrtP (y * y % p) : Nat) : ZMod p)
      = ((y : Nat) : ZMod p) * ((y : Nat) : ZMod p) := by
    have h1 : ((sqrtP (y * y % p) * sqrtP (y * y % p) % p : Nat) : ZMod p)
        = ((y * y % p : Nat) : ZMod p) := by rw [hsq]
    rwa [ZMod.natCast_mod, ZMod.natCast_mod, Nat.cast_mul, Nat.cast_mul] at h1
  have hfac : (((sqrtP (y * y % p) : Nat) : ZMod p) - ((y : Nat) : ZMod p))
      * (((sqrtP (y * y % p) : Nat) : ZMod p) + ((y : Nat) : ZMod p)) = 0 := by
    linear_combination hc
  rcases mul_eq_zero.mp hfac with hca | hca
  · have heq : sqrtP (y * y % p) = y :=
      natCast_inj_lt hy0lt hy (sub_eq_zero.mp hca)
    rw [heq, if_pos rfl]
  · have hneg : ((sqrtP (y * y % p) : Nat) : ZMod p) = -((y : Nat) : ZMod p) :=
      eq_neg_of_add_eq_zero_left hca
    have hcastval : (((p - y) % p : Nat) : ZMod p) = -((y : Nat) : ZMod p) := by
      rw [ZMod.natCast_mod (p - y) p, Nat.cast_sub hy.le, ZMod.natCast_self, zero_sub]
    have hy0val : sqrtP (y * y % p) = (p - y) % p := by
      apply natCast_inj_lt hy0lt (Nat.mod_lt _ hp0)
      rw [hcastval, hneg]
    by_cases hyz : y = 0
    · subst hyz
      have h0 : sqrtP (0 * 0 % p) = 0 := by
        rw [hy0val]
        simp
      rw [h0, if_pos rfl]
    · have hylt : p - y < p := by omega
      have hy0 : sqrtP (y * y % p) = p - y := by
        rw [hy0val, Nat.mod_eq_of_lt hylt]
      have hpodd : p % 2 = 1 := by decide
      have hpar : ¬ sqrtP (y * y % p) % 2 = y % 2 := by omega
      rw [if_neg hpar, hy0]
      have hsub : p - (p - y) = y := by omega
      rw [hsub, Nat.mod_eq_of_lt hy]

theorem onCurve_eq (x y : Nat) (hc : onCurve x y = true) :
    y * y % p = (x * x * x + a * x + b) % p := by
  simpa [onCurve] using hc

theorem cast_sub_mod (t : Nat) (ht : t ≤ p) :
    (((p - t) % p : Nat) : ZMod p) = -((t : Nat) : ZMod p) := by
  rw [ZMod.natCast_mod (p - t) p, Nat.cast_sub ht, ZMod.natCast_self, zero_sub]

theorem sub_mul_sub_mod (t : Nat) (ht : t ≤ p) :
    (p - t) % p * ((p - t) % p) % p = t * t % p := by
  have h0 : (0 : Nat) < p := by decide
  apply natCast_inj_lt (Nat.mod_lt _ h0) (Nat.mod_lt _ h0)
  rw [ZMod.natCast_mod ((p - t) % p * ((p - t) % p)) p, ZMod.natCast_mod (t * t) p,
    Nat.cast_mul, Nat.cast_mul, cast_sub_mod t ht]
  ring

/-- Length in bytes of the `CompressedPoint` type alias
`GenericArray<u8, U33>` from `p256/src/lib.rs`. -/
def CompressedPointLength : Nat := 33

/-- Modelled from the spec: the `InvalidScalar` error kind of §7 (scalar is
zero where non-zero is required, or out of range `[0, n)`). -/
inductive ScalarError where
  | invalidScalar : ScalarError
  deriving DecidableEq

/-- Modelled from the spec: `NonZeroScalar` construction from candidate
bytes (§4.2): decode the fixed-width big-endian candidate and fail with an
`InvalidScalar`-kind error when it does not fit the modulus `n = ORDER` or
reduces to zero. -/
def nonZeroScalarFromRepr (bs : List Nat) : Except ScalarError Nat :=
  if bs.length = 32 then
    if fromBE bs < ORDER then
      if fromBE bs = 0 then .error .invalidScalar else .ok (fromBE bs)
    else .error .invalidScalar
  else .error .invalidScalar

end NistP256

/-- C5: encoding then decoding is the identity on valid points: for every
point `(x, y)` on the curve (coordinates canonical in `[0, p)`, identity
excluded by construction), `decode (encode_uncompressed P) = P` and
`decode (encode_compressed P) = P`, with `decode` auto-detecting the form
from the leading tag byte. -/
theorem c5_encode_decode_roundtrip (x y : Nat) (hx : x < NistP256.p)
    (hy : y < NistP256.p) (hc : NistP256.onCurve x y = true) :
    NistP256.decode (NistP256.encodeUncompressed (NistP256.AffinePoint.affine x y))
        = Except.ok (NistP256.AffinePoint.affine x y)
      ∧ NistP256.decode (NistP256.encodeCompressed (NistP256.AffinePoint.affine x y))
        = Except.ok (NistP256.AffinePoint.affine x y) := by
  open NistP256 in
  have hxlt : x < 256 ^ 32 := lt_trans hx (by decide)
  have hylt : y < 256 ^ 32 := lt_trans hy (by decide)
  have hlenx := NistP256.beBytes_length 32 x
  have hleny := NistP256.beBytes_length 32 y
  have hxRT : NistP256.fromBE (NistP256.beBytes 32 x) = x := by
    rw [NistP256.fromBE_beBytes, Nat.mod_eq_of_lt hxlt]
  have hyRT : NistP256.fromBE (NistP256.beBytes 32 y) = y := by
    rw [NistP256.fromBE_beBytes, Nat.mod_eq_of_lt hylt]
  constructor
  · show NistP256.decode (4 :: (NistP256.beBytes 32 x ++ NistP256.beBytes 32 y))
        = Except.ok (NistP256.AffinePoint.affine x y)
    simp only [NistP256.decode]
    rw [NistP256.take_of_append (NistP256.beBytes 32 x) (NistP256.beBytes 32 y) hlenx,
        NistP256.drop_of_append (NistP256.beBytes 32 x) (NistP256.beBytes 32 y) hlenx,
        hxRT, hyRT]
    simp [List.length_append, hlenx, hleny, hx, hy, hc]
  · have hcy := NistP256.onCurve_eq x y hc
    have hchoose := NistP256.sqrt_choose y hy
    have hguard := NistP256.sqrt_sq y
    rcases Nat.mod_two_eq_zero_or_one y with h2 | h2
    · show NistP256.decode ((2 + y % 2) :: NistP256.beBytes 32 x)
          = Except.ok (NistP256.AffinePoint.affine x y)
      rw [h2] at hchoose ⊢
      simp only [NistP256.decode]
      rw [hlenx, hxRT]
      rw [hcy] at hguard hchoose
      simp [hx, hguard, hchoose]
    · show NistP256.decode ((2 + y % 2) :: NistP256.beBytes 32 x)
          = Except.ok (NistP256.AffinePoint.affine x y)
      rw [h2] at hchoose ⊢
      simp only [NistP256.decode]
      rw [hlenx, hxRT]
      rw [hcy] at hguard hchoose
      simp [hx, hguard, hchoose]

/-- Witness for C5 at the NIST P-256 generator. -/
theorem c5_witness :
    NistP256.gx < NistP256.p ∧ NistP256.gy < NistP256.p
      ∧ NistP256.onCurve NistP256.gx NistP256.gy = true
      ∧ (NistP256.decode
            (NistP256.encodeUncompressed
              (NistP256.AffinePoint.affine NistP256.gx NistP256.gy))
          = Except.ok (NistP256.AffinePoint.affine NistP256.gx NistP256.gy)
        ∧ NistP256.decode
            (NistP256.encodeCompressed
              (NistP256.AffinePoint.affine NistP256.gx NistP256.gy))
          = Except.ok (NistP256.AffinePoint.affine NistP256.gx NistP256.gy)) :=
  ⟨by decide, by decide, by decide,
    c5_encode_decode_roundtrip NistP256.gx NistP256.gy (by decide) (by decide) (by decide)⟩

/-- C6: decoding never panics and never returns a point on bad input:
`decode` is a total function into `Except`, and whenever it succeeds the
input had the curve's fixed width (65-byte `0x04` form or 33-byte
`0x02`/`0x03` form) and the returned point is the non-identity affine
point read from those very bytes: its `x` coordinate is the big-endian
decode of the input's `x` slice, lies in `[0, p)`, and together with the
returned `y` (also in `[0, p)`) satisfies the curve equation.
Contrapositively, every input whose length differs from the fixed widths,
whose decoded `x` is outside `[0, p)`, or which names a point not on the
curve is mapped to an explicit `PointDecodingError` value. -/
theorem c6_decode_safe (bs : List Nat) (pt : NistP256.AffinePoint)
    (h : NistP256.decode bs = Except.ok pt) :
    (bs.length = 65 ∨ bs.length = 33)
      ∧ ∃ t rest, bs = t :: rest
        ∧ ((t = 4 ∧ rest.length = 64
              ∧ NistP256.fromBE (rest.take 32) < NistP256.p
              ∧ NistP256.fromBE (rest.drop 32) < NistP256.p
              ∧ NistP256.onCurve (NistP256.fromBE (rest.take 32))
                  (NistP256.fromBE (rest.drop 32)) = true
              ∧ pt = NistP256.AffinePoint.affine (NistP256.fromBE (rest.take 32))
                  (NistP256.fromBE (rest.drop 32)))
          ∨ ((t = 2 ∨ t = 3) ∧ rest.length = 32
              ∧ NistP256.fromBE rest < NistP256.p
              ∧ ∃ y, y < NistP256.p
                  ∧ NistP256.onCurve (NistP256.fromBE rest) y = true
                  ∧ pt = NistP256.AffinePoint.affine (NistP256.fromBE rest) y)) := by
  match bs with
  | [] => exact absurd h (by simp [NistP256.decode])
  | t :: rest =>
    simp only [NistP256.decode] at h
    split at h
    · rename_i h4
      split at h
      · rename_i hlen
        split at h
        · rename_i hxp
          split at h
          · rename_i hyp
            split at h
            · rename_i hoc
              injection h with h'
              subst h'
              exact ⟨Or.inl (by simp [hlen]), t, rest, rfl,
                Or.inl ⟨h4, hlen, hxp, hyp, hoc, rfl⟩⟩
            · exact Except.noConfusion h
          · exact Except.noConfusion h
        · exact Except.noConfusion h
      · exact Except.noConfusion h
    · rename_i h4n
      split at h
      · rename_i h23
        split at h
        · rename_i hlen
          split at h
          · rename_i hxp
            split at h
            · rename_i hguard
              injection h with h'
              subst h'
              refine ⟨Or.inr (by simp [hlen]), t, rest, rfl,
                Or.inr ⟨h23, hlen, hxp, _, ?_, ?_, rfl⟩⟩
              · split
                · exact NistP256.sqrtP_lt _
                · exact Nat.mod_lt _ (by decide)
              · split
                · simp only [NistP256.onCurve, beq_iff_eq]
                  exact hguard
                · simp only [NistP256.onCurve, beq_iff_eq]
                  rw [NistP256.sub_mul_sub_mod _ (le_of_lt (NistP256.sqrtP_lt _)), hguard]
            · exact Except.noConfusion h
          · exact Except.noConfusion h
        · exact Except.noConfusion h
      · exact Except.noConfusion h

/-- Witness for C6 at the SEC1 encoding of the P-256 generator. -/
theorem c6_witness :
    ((NistP256.encodeUncompressed
          (NistP256.AffinePoint.affine NistP256.gx NistP256.gy)).length = 65
      ∨ (NistP256.encodeUncompressed
          (NistP256.AffinePoint.affine NistP256.gx NistP256.gy)).length = 33)
      ∧ ∃ t rest,
        NistP256.encodeUncompressed
            (NistP256.AffinePoint.affine NistP256.gx NistP256.gy) = t :: rest
          ∧ ((t = 4 ∧ rest.length = 64
                ∧ NistP256.fromBE (rest.take 32) < NistP256.p
                ∧ NistP256.fromBE (rest.drop 32) < NistP256.p
                ∧ NistP256.onCurve (NistP256.fromBE (rest.take 32))
                    (NistP256.fromBE (rest.drop 32)) = true
                ∧ NistP256.AffinePoint.affine NistP256.gx NistP256.gy
                    = NistP256.AffinePoint.affine (NistP256.fromBE (rest.take 32))
                        (NistP256.fromBE (rest.drop 32)))
            ∨ ((t = 2 ∨ t = 3) ∧ rest.length = 32
                ∧ NistP256.fromBE rest < NistP256.p
                ∧ ∃ y, y < NistP256.p
                    ∧ NistP256.onCurve (NistP256.fromBE rest) y = true
                    ∧ NistP256.AffinePoint.affine NistP256.gx NistP256.gy
                        = NistP256.AffinePoint.affine (NistP256.fromBE rest) y)) :=
  c6_decode_safe
    (NistP256.encodeUncompressed (NistP256.AffinePoint.affine NistP256.gx NistP256.gy))
    (NistP256.AffinePoint.affine NistP256.gx NistP256.gy) (by rfl)

/-- C7: `NonZeroScalar` construction from candidate bytes fails with the
`InvalidScalar` kind exactly when the candidate reduces to zero modulo
`n = ORDER` or is not in the valid range `[0, n)`; every successfully
constructed scalar is non-zero (and canonical). -/
theorem c7_nonzero_scalar (bs : List Nat) (hlen : bs.length = 32) :
    (NistP256.nonZeroScalarFromRepr bs
          = Except.error NistP256.ScalarError.invalidScalar
        ↔ (NistP256.fromBE bs % NistP256.ORDER = 0
            ∨ ¬ NistP256.fromBE bs < NistP256.ORDER))
      ∧ ∀ v, NistP256.nonZeroScalarFromRepr bs = Except.ok v
          → v ≠ 0 ∧ v < NistP256.ORDER := by
  unfold NistP256.nonZeroScalarFromRepr
  rw [if_pos hlen]
  by_cases hv : NistP256.fromBE bs < NistP256.ORDER
  · rw [if_pos hv]
    by_cases h0 : NistP256.fromBE bs = 0
    · rw [if_pos h0]
      refine ⟨?_, ?_⟩
      · simp [h0]
      · intro v hvok
        exact absurd hvok (by simp)
    · rw [if_neg h0]
      refine ⟨?_, ?_⟩
      · simp [Nat.mod_eq_of_lt hv, h0, hv]
      · intro v hvok
        injection hvok with h'
        rw [← h']
        exact ⟨h0, hv⟩
  · rw [if_neg hv]
    refine ⟨?_, ?_⟩
    · simp [hv]
    · intro v hvok
      exact absurd hvok (by simp)

/-- Witness for C7 at the 32-byte big-endian encoding of 1. -/
theorem c7_witness :
    (NistP256.fromBE (NistP256.beBytes 32 1) % NistP256.ORDER = 0
        ∨ ¬ NistP256.fromBE (NistP256.beBytes 32 1) < NistP256.ORDER
      ↔ NistP256.nonZeroScalarFromRepr (NistP256.beBytes 32 1)
          = Except.error NistP256.ScalarError.invalidScalar)
      ∧ ∀ v, NistP256.nonZeroScalarFromRepr (NistP256.beBytes 32 1) = Except.ok v
          → v ≠ 0 ∧ v < NistP256.ORDER := by
  have h := c7_nonzero_scalar (NistP256.beBytes 32 1) (by decide)
  exact ⟨h.1.symm, h.2⟩

/-- C9: the compressed SEC1 encoding of a P-256 point is exactly 33 bytes
(the length fixed by the `CompressedPoint` type `GenericArray<u8, U33>`):
one tag byte `0x02`/`0x03` given by the parity of `y`, followed by the
32-byte big-endian `x` coordinate. -/
theorem c9_compressed_layout (x y : Nat) :
    (NistP256.encodeCompressed (NistP256.AffinePoint.affine x y)).length
        = NistP256.CompressedPointLength
      ∧ (NistP256.encodeCompressed (NistP256.AffinePoint.affine x y)).head?
        = some (if y % 2 = 0 then 2 else 3)
      ∧ (NistP256.encodeCompressed (NistP256.AffinePoint.affine x y)).tail
        = NistP256.beBytes 32 x
      ∧ (NistP256.beBytes 32 x).length = 32 := by
  refine ⟨?_, ?_, rfl, NistP256.beBytes_length 32 x⟩
  · simp [NistP256.encodeCompressed, NistP256.beBytes_length,
      NistP256.CompressedPointLength]
  · rcases Nat.mod_two_eq_zero_or_one y with h2 | h2 <;>
      simp [NistP256.encodeCompressed, h2]

/-- C10: `NistP256` serializes points uncompressed by default: the curve's
`PointCompression` and `PointCompaction` parameters are both `false`, so a
consumer serializing a point without explicitly requesting compression
produces the `0x04`-tagged uncompressed layout. -/
theorem c10_default_uncompressed :
    NistP256.COMPRESS_POINTS = false ∧ NistP256.COMPACT_POINTS = false
      ∧ ∀ x y : Nat,
        (NistP256.toSec1Bytes (NistP256.AffinePoint.affine x y)).head? = some 4 :=
  ⟨rfl, rfl, fun _ _ => rfl⟩

end EllipticCurves
